/- Verification of the workflow execution engine (unbound_client.py,
   workflow_engine.py): a shallow embedding of the completion checker,
   the step executor and the workflow executor, with theorems settling
   the specification claims. -/
import Mathlib

/-! ## Python-style string and truthiness primitives -/

/-- If `lit` is a prefix of `cs`, return what follows it. -/
def matchLit (lit cs : List Char) : Option (List Char) :=
  match lit, cs with
  | [], rest => some rest
  | a :: ws, b :: rest => if a == b then matchLit ws rest else none
  | _ :: _, [] => none

/-- Worker for `pySplit`: cut at each leftmost non-overlapping separator. -/
def pySplitAux (sep : List Char) (fuel : Nat) (cs cur : List Char)
    (acc : List String) : List String :=
  match fuel with
  | 0 => acc ++ [String.mk cur]
  | fuel + 1 =>
    match matchLit sep cs with
    | some rest => pySplitAux sep fuel rest [] (acc ++ [String.mk cur])
    | none =>
      match cs with
      | [] => acc ++ [String.mk cur]
      | c :: rest => pySplitAux sep fuel rest (cur ++ [c]) acc

/-- Python `s.split(sep)` for a non-empty separator. -/
def pySplit (s sep : String) : List String :=
  pySplitAux sep.toList (s.toList.length + 1) s.toList [] []

/-- Python `needle in hay` substring test. -/
def pyIn (needle hay : String) : Bool :=
  needle == "" || decide (1 < (pySplit hay needle).length)

/-- Worker for `pyReplace`. -/
def pyReplaceAux (old new : List Char) (fuel : Nat) (cs acc : List Char) : List Char :=
  match fuel with
  | 0 => acc ++ cs
  | fuel + 1 =>
    match matchLit old cs with
    | some rest => pyReplaceAux old new fuel rest (acc ++ new)
    | none =>
      match cs with
      | [] => acc
      | c :: rest => pyReplaceAux old new fuel rest (acc ++ [c])

/-- Python `s.replace(old, new)` for a non-empty `old`: every
    non-overlapping occurrence, left to right. -/
def pyReplace (s old new : String) : String :=
  String.mk (pyReplaceAux old.toList new.toList (s.toList.length + 1) s.toList [])

/-- Python `s.lower()` (ASCII view). -/
def pyLower (s : String) : String :=
  String.mk (s.toList.map Char.toLower)

/-- Python whitespace for `str.strip`. -/
def pyIsSpace (c : Char) : Bool :=
  c == ' ' || c == '\t' || c == '\n' || c == '\r' || c == '\x0b' || c == '\x0c'

/-- Python `s.strip()`. -/
def pyStrip (s : String) : String :=
  String.mk (((s.toList.dropWhile pyIsSpace).reverse.dropWhile pyIsSpace).reverse)

/-- Python `sep.join(xs)`. -/
def pyJoin (sep : String) : List String → String
  | [] => ""
  | [x] => x
  | x :: xs => x ++ sep ++ pyJoin sep xs

/-- Python `s[:n]`. -/
def pyTake (s : String) (n : Nat) : String :=
  String.mk (s.toList.take n)

/-- Truthiness of an optional float (`None` and `0.0` are falsy),
    costs are modelled as rationals. -/
def pyTruthyQ : Option ℚ → Bool
  | none => false
  | some q => q != 0

/-- Python `a or b` on optional floats: `a` when truthy, else `b`. -/
def pyOrQ (a b : Option ℚ) : Option ℚ :=
  if pyTruthyQ a then a else b

/-- Addition of rational costs, written so that the kernel can evaluate
    it (the library addition on `Rat` does not reduce definitionally). -/
def qadd (a b : ℚ) : ℚ :=
  Rat.normalize (a.num * b.den + b.num * a.den) (a.den * b.den)
    (Nat.mul_ne_zero a.den_nz b.den_nz)

/-- Round to the nearest integer, ties to even (Python float formatting).
    `f` is the floor of `q`; comparing twice the remainder against the
    denominator decides the direction. -/
def roundHalfEven (q : ℚ) : Int :=
  let f := Int.fdiv q.num q.den
  let r2 := 2 * (q.num - f * q.den)
  if r2 < (q.den : Int) then f
  else if (q.den : Int) < r2 then f + 1
  else if f % 2 = 0 then f else f + 1

/-- Left-pad a numeral string with zeros to the given width. -/
def padZeros (w : Nat) (s : String) : String :=
  String.mk (List.replicate (w - s.length) '0') ++ s

/-- Python `f"{q:.4f}"`: fixed-point format with four decimals. -/
def fmt4 (q : ℚ) : String :=
  let n := roundHalfEven (Rat.normalize (q.num * 10000) q.den q.den_nz)
  let sign := if n < 0 then "-" else ""
  let a := n.natAbs
  sign ++ toString (a / 10000) ++ "." ++ padZeros 4 (toString (a % 10000))

/-! ## JSON values and a model of `json.loads` -/

/-- A parsed JSON document (Python object from `json.loads`).
    Object keys keep their textual order; a later duplicate wins on lookup. -/
inductive JVal where
  | null
  | bool (b : Bool)
  | num (q : ℚ)
  | str (s : String)
  | arr (xs : List JVal)
  | obj (kvs : List (String × JVal))
deriving Repr, Inhabited

/-- Python truthiness of a JSON value. -/
def pyTruthy : JVal → Bool
  | .null => false
  | .bool b => b
  | .num q => q != 0
  | .str s => s != ""
  | .arr xs => !xs.isEmpty
  | .obj kvs => !kvs.isEmpty

/-- Python `dict.get(k, dflt)`; for duplicate keys the last value wins. -/
def dictGet (kvs : List (String × JVal)) (k : String) (dflt : JVal) : JVal :=
  match kvs.reverse.find? (fun p => p.1 == k) with
  | some p => p.2
  | none => dflt

/-- JSON whitespace skipping. -/
def jskipWs : List Char → List Char
  | [] => []
  | c :: cs => if c == ' ' || c == '\t' || c == '\n' || c == '\r' then jskipWs cs else c :: cs

/-- Hex digit value, if any. -/
def hexVal (c : Char) : Option Nat :=
  if '0' ≤ c ∧ c ≤ '9' then some (c.toNat - '0'.toNat)
  else if 'a' ≤ c ∧ c ≤ 'f' then some (c.toNat - 'a'.toNat + 10)
  else if 'A' ≤ c ∧ c ≤ 'F' then some (c.toNat - 'A'.toNat + 10)
  else none

/-- Parse the body of a JSON string (after the opening quote). -/
def jparseStr (fuel : Nat) (cs : List Char) : Except String (String × List Char) :=
  match fuel, cs with
  | 0, _ => .error "Unterminated string"
  | _, [] => .error "Unterminated string"
  | fuel + 1, c :: cs =>
    if c == '"' then .ok ("", cs)
    else if c == '\\' then
      match cs with
      | [] => .error "Unterminated string"
      | e :: cs2 =>
        let dec : Except String (Char × List Char) :=
          if e == '"' then .ok ('"', cs2)
          else if e == '\\' then .ok ('\\', cs2)
          else if e == '/' then .ok ('/', cs2)
          else if e == 'b' then .ok ('\x08', cs2)
          else if e == 'f' then .ok ('\x0c', cs2)
          else if e == 'n' then .ok ('\n', cs2)
          else if e == 'r' then .ok ('\r', cs2)
          else if e == 't' then .ok ('\t', cs2)
          else if e == 'u' then
            match cs2 with
            | a :: b :: c1 :: d :: cs3 =>
              match hexVal a, hexVal b, hexVal c1, hexVal d with
              | some ha, some hb, some hc, some hd =>
                .ok (Char.ofNat (((ha * 16 + hb) * 16 + hc) * 16 + hd), cs3)
              | _, _, _, _ => .error "Invalid \x5cuXXXX escape"
            | _ => .error "Invalid \x5cuXXXX escape"
          else .error "Invalid \x5cescape"
        match dec with
        | .error m => .error m
        | .ok (ch, rest) =>
          match jparseStr fuel rest with
          | .error m => .error m
          | .ok (s, rest2) => .ok (String.mk [ch] ++ s, rest2)
    else if c.toNat < 0x20 then .error "Invalid control character"
    else
      match jparseStr fuel cs with
      | .error m => .error m
      | .ok (s, rest) => .ok (String.mk [c] ++ s, rest)

/-- Digits munched into a natural number with their count. -/
def jparseDigits : List Char → Nat → Nat → (Nat × Nat × List Char)
  | [], acc, cnt => (acc, cnt, [])
  | c :: cs, acc, cnt =>
    if '0' ≤ c ∧ c ≤ '9' then jparseDigits cs (acc * 10 + (c.toNat - '0'.toNat)) (cnt + 1)
    else (acc, cnt, c :: cs)

/-- Parse a JSON number (no leading zeros, optional fraction and exponent). -/
def jparseNum (cs : List Char) : Except String (ℚ × List Char) :=
  let (neg, cs1) := match cs with
    | '-' :: rest => (true, rest)
    | _ => (false, cs)
  match cs1 with
  | [] => .error "Expecting value"
  | c :: _ =>
    if ¬('0' ≤ c ∧ c ≤ '9') then .error "Expecting value"
    else
      let (ip, ipCnt, cs2) := jparseDigits cs1 0 0
      if c == '0' ∧ ipCnt > 1 then .error "Expecting value"
      else
        let (frac, cs3) : ℚ × List Char := match cs2 with
          | '.' :: rest =>
            let (fp, fpCnt, rest2) := jparseDigits rest 0 0
            ((fp : ℚ) / (10 : ℚ) ^ fpCnt, rest2)
          | _ => (0, cs2)
        let base : ℚ := (ip : ℚ) + frac
        let (q, cs4) : ℚ × List Char := match cs3 with
          | 'e' :: rest | 'E' :: rest =>
            let (esign, rest1) := match rest with
              | '-' :: r => (true, r)
              | '+' :: r => (false, r)
              | _ => (false, rest)
            let (ev, _, rest2) := jparseDigits rest1 0 0
            (if esign then base / (10 : ℚ) ^ ev else base * (10 : ℚ) ^ ev, rest2)
          | _ => (base, cs3)
        .ok (if neg then -q else q, cs4)

mutual

/-- Parse one JSON value. -/
def jparseVal (fuel : Nat) (cs : List Char) : Except String (JVal × List Char) :=
  match fuel with
  | 0 => .error "Expecting value"
  | fuel + 1 =>
    match jskipWs cs with
    | [] => .error "Expecting value"
    | c :: rest =>
      if c == '"' then
        match jparseStr (rest.length + 1) rest with
        | .error m => .error m
        | .ok (s, rest2) => .ok (.str s, rest2)
      else if c == '{' then jparseObj fuel (jskipWs rest) true
      else if c == '[' then jparseArr fuel (jskipWs rest) true
      else
        match matchLit ['t', 'r', 'u', 'e'] (c :: rest) with
        | some rest2 => .ok (.bool true, rest2)
        | none =>
        match matchLit ['f', 'a', 'l', 's', 'e'] (c :: rest) with
        | some rest2 => .ok (.bool false, rest2)
        | none =>
        match matchLit ['n', 'u', 'l', 'l'] (c :: rest) with
        | some rest2 => .ok (.null, rest2)
        | none =>
          match jparseNum (c :: rest) with
          | .error m => .error m
          | .ok (q, rest2) => .ok (.num q, rest2)

/-- Parse the inside of a JSON object, after `\x7b`. -/
def jparseObj (fuel : Nat) (cs : List Char) (first : Bool) : Except String (JVal × List Char) :=
  match fuel with
  | 0 => .error "Expecting property name"
  | fuel + 1 =>
    match cs with
    | '}' :: rest =>
      if first then .ok (.obj [], rest)
      else .error "Expecting property name"
    | _ =>
      match cs with
      | '"' :: rest =>
        (match jparseStr (rest.length + 1) rest with
        | .error m => .error m
        | .ok (k, rest2) =>
          match jskipWs rest2 with
          | ':' :: rest3 =>
            (match jparseVal fuel rest3 with
            | .error m => .error m
            | .ok (v, rest4) =>
              match jskipWs rest4 with
              | ',' :: rest5 =>
                (match jparseObj fuel (jskipWs rest5) false with
                | .error m => .error m
                | .ok (.obj kvs, rest6) => .ok (.obj ((k, v) :: kvs), rest6)
                | .ok _ => .error "Expecting property name")
              | '}' :: rest5 => .ok (.obj [(k, v)], rest5)
              | _ => .error "Expecting comma delimiter")
          | _ => .error "Expecting colon delimiter")
      | _ => .error "Expecting property name"

/-- Parse the inside of a JSON array, after `[`. -/
def jparseArr (fuel : Nat) (cs : List Char) (first : Bool) : Except String (JVal × List Char) :=
  match fuel with
  | 0 => .error "Expecting value"
  | fuel + 1 =>
    match cs with
    | ']' :: rest =>
      if first then .ok (.arr [], rest)
      else .error "Expecting value"
    | _ =>
      match jparseVal fuel cs with
      | .error m => .error m
      | .ok (v, rest) =>
        match jskipWs rest with
        | ',' :: rest2 =>
          (match jparseArr fuel (jskipWs rest2) false with
          | .error m => .error m
          | .ok (.arr vs, rest3) => .ok (.arr (v :: vs), rest3)
          | .ok _ => .error "Expecting value")
        | ']' :: rest2 => .ok (.arr [v], rest2)
        | _ => .error "Expecting comma delimiter"

end

/-- Model of Python `json.loads`: parse a whole document, rejecting
    trailing data. -/
def jsonLoads (s : String) : Except String JVal :=
  let cs := s.toList
  match jparseVal (cs.length + 1) cs with
  | .error m => .error m
  | .ok (v, rest) =>
    match jskipWs rest with
    | [] => .ok v
    | _ => .error "Extra data"

/-! ## A model of Python `re` for the patterns the engine compiles
    (`re.search` with `re.MULTILINE | re.DOTALL`) -/

/-- One member of a character class. -/
inductive ClsItem where
  | single (c : Char)
  | range (lo hi : Char)
  | digit | word | space
  | ndigit | nword | nspace
deriving Repr

/-- Regular-expression abstract syntax. -/
inductive RE where
  | eps
  | chr (c : Char)
  | anyc
  | cls (neg : Bool) (items : List ClsItem)
  | startA
  | endA
  | cat (a b : RE)
  | alt (a b : RE)
  | star (a : RE)
deriving Repr

/-- Python `\w` (ASCII view). -/
def isWordChar (c : Char) : Bool := c.isAlphanum || c == '_'

/-- Python `\d`. -/
def isDigitChar (c : Char) : Bool := '0' ≤ c && c ≤ '9'

/-- Python `\s`. -/
def isSpaceChar (c : Char) : Bool :=
  c == ' ' || c == '\t' || c == '\n' || c == '\r' || c == '\x0b' || c == '\x0c'

/-- Does a class item match a character? -/
def clsItemMatch (c : Char) : ClsItem → Bool
  | .single d => c == d
  | .range lo hi => lo ≤ c && c ≤ hi
  | .digit => isDigitChar c
  | .word => isWordChar c
  | .space => isSpaceChar c
  | .ndigit => !isDigitChar c
  | .nword => !isWordChar c
  | .nspace => !isSpaceChar c

/-- Does a (possibly negated) class match a character? -/
def clsMatch (neg : Bool) (items : List ClsItem) (c : Char) : Bool :=
  let hit := items.any (clsItemMatch c)
  if neg then !hit else hit

/-! ### Pattern compilation (the part of `re.compile` that can fail) -/

/-- Parse the inside of a `[...]` class; the leading `]` is literal. -/
def reParseCls (fuel : Nat) (cs : List Char) (acc : List ClsItem) (first : Bool) :
    Except String (List ClsItem × List Char) :=
  match fuel with
  | 0 => .error "unterminated character set"
  | fuel + 1 =>
    match cs with
    | [] => .error "unterminated character set"
    | ']' :: rest =>
      if first then reParseCls fuel rest (acc ++ [.single ']']) false
      else .ok (acc, rest)
    | '\\' :: e :: rest =>
      if e == 'd' then reParseCls fuel rest (acc ++ [.digit]) false
      else if e == 'D' then reParseCls fuel rest (acc ++ [.ndigit]) false
      else if e == 'w' then reParseCls fuel rest (acc ++ [.word]) false
      else if e == 'W' then reParseCls fuel rest (acc ++ [.nword]) false
      else if e == 's' then reParseCls fuel rest (acc ++ [.space]) false
      else if e == 'S' then reParseCls fuel rest (acc ++ [.nspace]) false
      else if e == 'n' then reParseCls fuel rest (acc ++ [.single '\n']) false
      else if e == 't' then reParseCls fuel rest (acc ++ [.single '\t']) false
      else if e == 'r' then reParseCls fuel rest (acc ++ [.single '\r']) false
      else if e.isAlpha then .error "bad escape in character set"
      else reParseCls fuel rest (acc ++ [.single e]) false
    | '\\' :: [] => .error "bad escape (end of pattern)"
    | a :: '-' :: b :: rest =>
      if b == ']' then .ok (acc ++ [.single a, .single '-'], rest)
      else if a ≤ b then reParseCls fuel rest (acc ++ [.range a b]) false
      else .error "bad character range"
    | a :: rest => reParseCls fuel rest (acc ++ [.single a]) false

mutual

/-- Parse an alternation `seq | seq | ...`. -/
def reParseAlt (fuel : Nat) (cs : List Char) : Except String (RE × List Char) :=
  match fuel with
  | 0 => .error "pattern too deep"
  | fuel + 1 =>
    match reParseSeq fuel cs with
    | .error m => .error m
    | .ok (a, rest) =>
      match rest with
      | '|' :: rest2 =>
        (match reParseAlt fuel rest2 with
        | .error m => .error m
        | .ok (b, rest3) => .ok (.alt a b, rest3))
      | _ => .ok (a, rest)

/-- Parse a concatenation of quantified atoms. -/
def reParseSeq (fuel : Nat) (cs : List Char) : Except String (RE × List Char) :=
  match fuel with
  | 0 => .error "pattern too deep"
  | fuel + 1 =>
    match cs with
    | [] => .ok (.eps, [])
    | '|' :: _ => .ok (.eps, cs)
    | ')' :: _ => .ok (.eps, cs)
    | c :: _ =>
      if c == '*' || c == '+' || c == '?' then .error "nothing to repeat"
      else
        match reParseAtom fuel cs with
        | .error m => .error m
        | .ok (a, rest) =>
          let (a2, rest2) : RE × List Char := match rest with
            | '*' :: '?' :: r => (.star a, r)
            | '*' :: r => (.star a, r)
            | '+' :: '?' :: r => (.cat a (.star a), r)
            | '+' :: r => (.cat a (.star a), r)
            | '?' :: '?' :: r => (.alt a .eps, r)
            | '?' :: r => (.alt a .eps, r)
            | _ => (a, rest)
          match rest2 with
          | q :: _ =>
            if q == '*' || q == '+' then .error "multiple repeat"
            else
              (match reParseSeq fuel rest2 with
              | .error m => .error m
              | .ok (b, rest3) => .ok (.cat a2 b, rest3))
          | [] => .ok (a2, [])

/-- Parse one atom: literal, class, group, anchor or escape. -/
def reParseAtom (fuel : Nat) (cs : List Char) : Except String (RE × List Char) :=
  match fuel with
  | 0 => .error "pattern too deep"
  | fuel + 1 =>
    match cs with
    | [] => .error "nothing to parse"
    | '(' :: '?' :: ':' :: rest =>
      (match reParseAlt fuel rest with
      | .error m => .error m
      | .ok (a, rest2) =>
        match rest2 with
        | ')' :: rest3 => .ok (a, rest3)
        | _ => .error "missing ), unterminated subpattern")
    | '(' :: '?' :: _ => .error "unsupported extension group"
    | '(' :: rest =>
      (match reParseAlt fuel rest with
      | .error m => .error m
      | .ok (a, rest2) =>
        match rest2 with
        | ')' :: rest3 => .ok (a, rest3)
        | _ => .error "missing ), unterminated subpattern")
    | '[' :: '^' :: rest =>
      (match reParseCls (rest.length + 2) rest [] true with
      | .error m => .error m
      | .ok (items, rest2) => .ok (.cls true items, rest2))
    | '[' :: rest =>
      (match reParseCls (rest.length + 2) rest [] true with
      | .error m => .error m
      | .ok (items, rest2) => .ok (.cls false items, rest2))
    | '.' :: rest => .ok (.anyc, rest)
    | '^' :: rest => .ok (.startA, rest)
    | '$' :: rest => .ok (.endA, rest)
    | '\\' :: e :: rest =>
      if e == 'd' then .ok (.cls false [.digit], rest)
      else if e == 'D' then .ok (.cls false [.ndigit], rest)
      else if e == 'w' then .ok (.cls false [.word], rest)
      else if e == 'W' then .ok (.cls false [.nword], rest)
      else if e == 's' then .ok (.cls false [.space], rest)
      else if e == 'S' then .ok (.cls false [.nspace], rest)
      else if e == 'n' then .ok (.chr '\n', rest)
      else if e == 't' then .ok (.chr '\t', rest)
      else if e == 'r' then .ok (.chr '\r', rest)
      else if e.isAlpha || e.isDigit then .error "bad escape"
      else .ok (.chr e, rest)
    | '\\' :: [] => .error "bad escape (end of pattern)"
    | c :: rest => .ok (.chr c, rest)

end

/-- Model of `re.compile`: parse a pattern string, or report the error. -/
def reCompile (pattern : String) : Except String RE :=
  let cs := pattern.toList
  match reParseAlt (2 * cs.length + 4) cs with
  | .error m => .error m
  | .ok (a, rest) =>
    match rest with
    | [] => .ok a
    | ')' :: _ => .error "unbalanced parenthesis"
    | _ => .error "unexpected trailing pattern"

/-! ### Matching (`re.search` with MULTILINE and DOTALL) -/

/-- Fuel-bounded continuation-passing matcher. `pre` holds the characters
    before the current position in reverse (for the `^` anchor), `suf`
    the rest of the subject. -/
def reMtch (fuel : Nat) (re : RE) (pre suf : List Char)
    (k : List Char → List Char → Bool) : Bool :=
  match fuel with
  | 0 => false
  | fuel + 1 =>
    match re with
    | .eps => k pre suf
    | .chr c =>
      match suf with
      | [] => false
      | d :: rest => c == d && k (d :: pre) rest
    | .anyc =>
      match suf with
      | [] => false
      | d :: rest => k (d :: pre) rest
    | .cls neg items =>
      match suf with
      | [] => false
      | d :: rest => clsMatch neg items d && k (d :: pre) rest
    | .startA => (pre.isEmpty || pre.headD ' ' == '\n') && k pre suf
    | .endA => (suf.isEmpty || suf.headD ' ' == '\n') && k pre suf
    | .cat a b => reMtch fuel a pre suf (fun p s => reMtch fuel b p s k)
    | .alt a b => reMtch fuel a pre suf k || reMtch fuel b pre suf k
    | .star a =>
      k pre suf ||
      reMtch fuel a pre suf (fun p s =>
        if s.length < suf.length then reMtch fuel (.star a) p s k else false)

/-- Size of a pattern, used to pick a fuel bound. -/
def reSize : RE → Nat
  | .eps | .chr _ | .anyc | .cls _ _ | .startA | .endA => 1
  | .cat a b | .alt a b => reSize a + reSize b + 1
  | .star a => reSize a + 1

/-- Try to match at every position, as `re.search` does. -/
def reSearchFrom (fuel : Nat) (re : RE) (pre suf : List Char) : Bool :=
  reMtch fuel re pre suf (fun _ _ => true) ||
  match suf with
  | [] => false
  | c :: rest => reSearchFrom fuel re (c :: pre) rest

/-- Model of `re.search(pattern, s, re.MULTILINE | re.DOTALL)` on a
    compiled pattern: true when a match exists anywhere. -/
def reSearch (re : RE) (s : String) : Bool :=
  let cs := s.toList
  reSearchFrom ((cs.length + 2) * (reSize re + 2) * 4 + 64) re [] cs

/-! ## Model Invoker (unbound_client.call_llm) and Completion Checker -/

/-- Outcome of one `call_llm` invocation: either a response with usage
    data, or an error entry (then tokens and cost are zero). -/
structure CallResult where
  response : String := ""
  error : Option String := none
  tokensUsed : Nat := 0
  cost : ℚ := 0
deriving Repr

/-- The network is modelled as an oracle: call index, model and prompt
    determine the `call_llm` result. -/
def Oracle := Nat → String → String → CallResult

/-- Result of a criteria check. `passed` and `reason` are JSON values
    because the `llm` path copies them straight out of the judge's JSON. -/
structure CheckResult where
  passed : JVal
  reason : JVal
deriving Repr

/-- The judge prompt built by `check_completion_with_llm`. -/
def judgePrompt (output criteria : String) : String :=
  "You are evaluating whether an AI output meets specific completion criteria.\n\nOutput to evaluate:\n"
  ++ output
  ++ "\n\nCompletion criteria:\n"
  ++ criteria
  ++ "\n\nRespond with a JSON object containing:\n- \"passed\": true or false\n- \"reason\": a brief explanation\n\nOnly respond with the JSON object, no other text."

/-- Code-fence stripping applied to the judge's (already stripped)
    response text before JSON parsing. -/
def stripFences (t : String) : String :=
  if pyIn "```json" t then
    pyStrip ((pySplit ((pySplit t "```json").getD 1 "") "```").getD 0 "")
  else if pyIn "```" t then
    pyStrip ((pySplit ((pySplit t "```").getD 1 "") "```").getD 0 "")
  else t

/-- `check_completion_with_llm`: ask the judge model, parse its JSON
    verdict leniently, fall back to the keyword check on parse failure.
    A judge reply that is valid JSON but not an object makes the Python
    code call `.get` on a non-dict, raising `AttributeError`. -/
def checkCompletionWithLLM (oracle : Oracle) (ctr : Nat) (output criteria : String) :
    Except String (CheckResult × Nat) :=
  let result := oracle ctr "gpt-3.5-turbo" (judgePrompt output criteria)
  let ctr1 := ctr + 1
  match result.error with
  | some err =>
    .ok ({ passed := .bool false, reason := .str ("Error checking criteria: " ++ err) }, ctr1)
  | none =>
    let responseText := stripFences (pyStrip result.response)
    match jsonLoads responseText with
    | .ok (.obj kvs) =>
      .ok ({ passed := dictGet kvs "passed" (.bool false),
             reason := dictGet kvs "reason" (.str "No reason provided") }, ctr1)
    | .ok _ => .error "AttributeError"
    | .error e =>
      if pyIn "success" (pyLower criteria) && pyIn "success" (pyLower output) then
        .ok ({ passed := .bool true, reason := .str "Found \x27success\x27 keyword" }, ctr1)
      else
        .ok ({ passed := .bool false, reason := .str ("Could not parse evaluation: " ++ e) }, ctr1)

/-- `_check_string`: trimmed exact equality. -/
def checkString (output criteria : String) : CheckResult :=
  let passed := pyStrip output == pyStrip criteria
  { passed := .bool passed,
    reason := .str (if passed then "Exact match" else "Strings do not match") }

/-- `_check_regex`: pattern search over the whole output; a pattern that
    fails to compile yields `passed=false` and the parse error. -/
def checkRegex (output pattern : String) : CheckResult :=
  match reCompile pattern with
  | .ok re =>
    let passed := reSearch re output
    { passed := .bool passed,
      reason := .str (if passed then "Pattern matched" else "Pattern not found") }
  | .error e => { passed := .bool false, reason := .str ("Invalid regex: " ++ e) }

/-- `_check_json`: validity of the output as a JSON document. -/
def checkJson (output : String) : CheckResult :=
  match jsonLoads output with
  | .ok _ => { passed := .bool true, reason := .str "Valid JSON" }
  | .error e => { passed := .bool false, reason := .str ("Invalid JSON: " ++ e) }

/-- `_check_contains`: case-insensitive substring test. -/
def checkContains (output criteria : String) : CheckResult :=
  let passed := pyIn (pyLower criteria) (pyLower output)
  { passed := .bool passed,
    reason := .str ("\x27" ++ criteria ++ "\x27 "
      ++ (if passed then "found" else "not found") ++ " in output") }

/-- `CompletionChecker.check`: dispatch on the criteria type. -/
def CompletionChecker.check (oracle : Oracle) (ctr : Nat)
    (output criteria criteriaType : String) : Except String (CheckResult × Nat) :=
  if criteriaType == "string" then .ok (checkString output criteria, ctr)
  else if criteriaType == "regex" then .ok (checkRegex output criteria, ctr)
  else if criteriaType == "llm" then checkCompletionWithLLM oracle ctr output criteria
  else if criteriaType == "json" then .ok (checkJson output, ctr)
  else if criteriaType == "contains" then .ok (checkContains output criteria, ctr)
  else .ok ({ passed := .bool false,
              reason := .str ("Unknown criteria type: " ++ criteriaType) }, ctr)

/-! ## Data model of the engine -/

/-- One iteration of a step's retry loop. -/
structure Attempt where
  attempt : Nat
  status : String
  output : String
  tokensUsed : Nat
  cost : ℚ
  checkResult : Option CheckResult := none
  error : Option String := none
deriving Repr

/-- The record returned by `execute_step` (step index and name are
    stamped on afterwards by `execute_workflow`). -/
structure StepResult where
  status : String
  output : String
  attempts : List Attempt
  tokensUsed : Nat
  cost : ℚ
  extractedContext : Option String := none
  checkResult : Option CheckResult := none
  error : Option String := none
  stepIndex : Option Nat := none
  stepName : Option String := none
deriving Repr, Inhabited

/-- A step definition, with the `dict.get` defaults of the source. -/
structure Step where
  name : Option String := none
  prompt : String := ""
  model : String := "gpt-3.5-turbo"
  maxRetries : Nat := 3
  completionCriteria : String := ""
  criteriaType : String := "contains"
  contextExtraction : String := "full"
  budgetCap : Option ℚ := none
deriving Repr

/-- A workflow definition. -/
structure Workflow where
  id : Option String := none
  name : Option String := none
  steps : List Step := []
  budgetCap : Option ℚ := none
deriving Repr

/-- The in-progress and final execution record. -/
structure Execution where
  workflowId : String
  workflowName : String
  status : String
  startedAt : Option String := none
  completedAt : Option String := none
  stepResults : List StepResult := []
  totalTokens : Nat := 0
  totalCost : ℚ := 0
  workflowBudgetCap : Option ℚ := none
  failedAtStep : Option Nat := none
  error : Option String := none
deriving Repr, Inhabited

/-- One progress-callback snapshot. -/
structure ProgressEvent where
  currentStep : Nat
  totalSteps : Nat
  stepName : Option String := none
  status : String
deriving Repr, DecidableEq

/-! ## Step executor -/

/-- Prompt assembly of `execute_step`: with prior context and a
    non-first step, either substitute placeholder tokens (when the
    lowercased prompt contains `\x7bcontext` or `\x7bprevious`) or prepend a
    labeled context block. -/
def buildPrompt (prompt context : String) (stepIndex : Nat) : String :=
  if context != "" && decide (0 < stepIndex) then
    if pyIn "\x7bcontext" (pyLower prompt) || pyIn "\x7bprevious" (pyLower prompt) then
      pyReplace (pyReplace (pyReplace (pyReplace prompt
        "\x7bcontext from previous step\x7d" context)
        "\x7bcontext\x7d" context)
        "\x7bprevious step output\x7d" context)
        "\x7bprevious_output\x7d" context
    else
      "Context from previous step:\n" ++ context ++ "\n\n" ++ prompt
  else prompt

/-- `\x7b` `\x7b` `\x7b` fenced-block pattern: consume three backticks. -/
def dropTicks3 : List Char → Option (List Char)
  | '`' :: '`' :: '`' :: rest => some rest
  | _ => none

/-- Scan for the next triple backtick; return the text before it and
    the rest after it. -/
def findTicks3 : List Char → Option (List Char × List Char)
  | [] => none
  | c :: rest =>
    match dropTicks3 (c :: rest) with
    | some after => some ([], after)
    | none =>
      match findTicks3 rest with
      | some (before, after) => some (c :: before, after)
      | none => none

/-- Match the regex `(three backticks)[\w]*\n(.*?)(three backticks)` at the
    current position; on success return the lazily captured body and the
    remaining input after the match. -/
def matchBlockAt (cs : List Char) : Option (List Char × List Char) :=
  match dropTicks3 cs with
  | none => none
  | some afterTicks =>
    match afterTicks.dropWhile isWordChar with
    | '\n' :: body => findTicks3 body
    | _ => none

/-- `re.findall` of the fenced-block pattern: leftmost matches in order,
    resuming after each match. -/
def findCodeBlocksAux (fuel : Nat) (cs : List Char) : List String :=
  match fuel with
  | 0 => []
  | fuel + 1 =>
    match cs with
    | [] => []
    | _ :: rest =>
      match matchBlockAt cs with
      | some (cap, after) => String.mk cap :: findCodeBlocksAux fuel after
      | none => findCodeBlocksAux fuel rest

/-- All fenced code blocks of an output, in discovery order. -/
def findCodeBlocks (output : String) : List String :=
  findCodeBlocksAux output.toList.length output.toList

/-- `_extract_context`: derive the context string for the next step. -/
def extractContext (output extractionType : String) : String :=
  if extractionType == "full" then output
  else if extractionType == "code_blocks" then
    let blocks := findCodeBlocks output
    if blocks.isEmpty then output else pyJoin "\n\n" blocks
  else if extractionType == "summary" then
    if 500 < output.length then pyTake output 500 ++ "..." else output
  else output

/-- The Python guard `cap and cost >= cap` (falsy caps never fire). -/
def budgetHit (cap : Option ℚ) (cost : ℚ) : Bool :=
  match cap with
  | none => false
  | some b => b != 0 && decide (b ≤ cost)

/-- Total tokens over recorded attempts,
    `sum(a.get("tokens_used", 0) for a in attempts)`. -/
def sumAttemptTokens (attempts : List Attempt) : Nat :=
  (attempts.map (fun a => a.tokensUsed)).sum

/-- The retry loop of `execute_step`. `fuel` counts the remaining loop
    iterations (initially `maxRetries + 1`), `attemptIdx` the 0-based
    attempt number, `ctr` the oracle call counter. The `Except` layer
    carries a Python exception escaping the loop (the judge-path
    `AttributeError`). -/
def executeStepLoop (oracle : Oracle) (prompt model criteria criteriaType ctxExtraction : String)
    (maxRetries : Nat) (cap : Option ℚ) (fuel attemptIdx : Nat) (attempts : List Attempt)
    (lastOutput : String) (stepCost : ℚ) (ctr : Nat) : Except String (StepResult × Nat) :=
  match fuel with
  | 0 =>
    .ok ({ status := "failed", output := lastOutput, attempts := attempts,
           tokensUsed := sumAttemptTokens attempts, cost := stepCost,
           error := some ("Failed to meet completion criteria after "
             ++ toString (maxRetries + 1) ++ " attempts") }, ctr)
  | fuel + 1 =>
    if budgetHit cap stepCost then
      .ok ({ status := "failed", output := lastOutput, attempts := attempts,
             tokensUsed := sumAttemptTokens attempts, cost := stepCost,
             error := some ("Budget cap of $" ++ fmt4 (cap.getD 0)
               ++ " exceeded. Current cost: $" ++ fmt4 stepCost) }, ctr)
    else
      let result := oracle ctr model prompt
      let ctr1 := ctr + 1
      match result.error with
      | some err =>
        let errAttempt : Attempt := { attempt := attemptIdx + 1, status := "error",
                                      output := "", tokensUsed := 0, cost := 0,
                                      error := some err }
        let attempts1 := attempts ++ [errAttempt]
        if attemptIdx == maxRetries then
          .ok ({ status := "failed", output := "", error := some err, attempts := attempts1,
                 tokensUsed := 0, cost := stepCost }, ctr1)
        else
          executeStepLoop oracle prompt model criteria criteriaType ctxExtraction maxRetries cap
            fuel (attemptIdx + 1) attempts1 lastOutput stepCost ctr1
      | none =>
        let output := result.response
        let tokensUsed := result.tokensUsed
        let attemptCost := result.cost
        let stepCost1 := qadd stepCost attemptCost
        let checked : Except String (CheckResult × Nat) :=
          if criteria != "" then
            CompletionChecker.check oracle ctr1 output criteria criteriaType
          else
            .ok ({ passed := .bool true, reason := .str "No criteria specified" }, ctr1)
        match checked with
        | .error exn => .error exn
        | .ok (checkRes, ctr2) =>
          let passed := pyTruthy checkRes.passed
          let newAttempt : Attempt := { attempt := attemptIdx + 1,
                                        status := if passed then "passed" else "failed",
                                        output := output, tokensUsed := tokensUsed,
                                        cost := attemptCost, checkResult := some checkRes }
          let attempts1 := attempts ++ [newAttempt]
          if passed then
            .ok ({ status := "completed", output := output,
                   extractedContext := some (extractContext output ctxExtraction),
                   attempts := attempts1, tokensUsed := tokensUsed, cost := stepCost1,
                   checkResult := some checkRes }, ctr2)
          else
            executeStepLoop oracle prompt model criteria criteriaType ctxExtraction maxRetries cap
              fuel (attemptIdx + 1) attempts1 output stepCost1 ctr2

/-- `execute_step`: build the prompt, resolve the effective budget cap
    (step cap if truthy, else the inherited one) and run the retry loop. -/
def executeStep (oracle : Oracle) (step : Step) (context : String) (stepIndex : Nat)
    (budgetCap : Option ℚ) (ctr : Nat) : Except String (StepResult × Nat) :=
  executeStepLoop oracle (buildPrompt step.prompt context stepIndex) step.model
    step.completionCriteria step.criteriaType step.contextExtraction step.maxRetries
    (pyOrQ step.budgetCap budgetCap) (step.maxRetries + 1) 0 [] "" 0 ctr

/-! ## Workflow executor -/

/-- The per-step loop of `execute_workflow`. `events` records the
    progress-callback invocations in order. -/
def execWorkflowLoop (oracle : Oracle) (now : String) (totalSteps : Nat)
    (workflowBudget : Option ℚ) (steps : List Step) (i : Nat) (context : String)
    (ctr : Nat) (ex : Execution) (events : List ProgressEvent) :
    Except String (Execution × List ProgressEvent) :=
  match steps with
  | [] =>
    if ex.status == "running" then
      .ok ({ ex with status := "completed", completedAt := some now },
           events ++ [{ currentStep := totalSteps, totalSteps := totalSteps,
                        status := "completed" }])
    else .ok (ex, events)
  | step :: rest =>
    let stepName := step.name.getD ("Step " ++ toString (i + 1))
    if budgetHit workflowBudget ex.totalCost then
      .ok ({ ex with status := "failed", failedAtStep := some (i + 1),
                     completedAt := some now,
                     error := some ("Workflow budget cap of $" ++ fmt4 (workflowBudget.getD 0)
                       ++ " exceeded. Current cost: $" ++ fmt4 ex.totalCost) }, events)
    else
      let events1 := events ++ [{ currentStep := i + 1, totalSteps := totalSteps,
                                  stepName := some stepName, status := "running" }]
      match executeStep oracle step context i workflowBudget ctr with
      | .error exn => .error exn
      | .ok (sr0, ctr1) =>
        let sr := { sr0 with stepIndex := some i, stepName := some stepName }
        let ex1 := { ex with stepResults := ex.stepResults ++ [sr],
                             totalTokens := ex.totalTokens + sr.tokensUsed,
                             totalCost := qadd ex.totalCost sr.cost }
        if sr.status == "failed" then
          .ok ({ ex1 with status := "failed", failedAtStep := some (i + 1),
                          completedAt := some now },
               events1 ++ [{ currentStep := i + 1, totalSteps := totalSteps,
                             stepName := some stepName, status := "failed" }])
        else
          execWorkflowLoop oracle now totalSteps workflowBudget rest (i + 1)
            (sr.extractedContext.getD sr.output) ctr1 ex1 events1

/-- `execute_workflow`: initialize the execution record and run the
    loop. `now` stands for `datetime.now().isoformat()`. -/
def executeWorkflow (oracle : Oracle) (now : String) (workflow : Workflow)
    (workflowBudgetCap : Option ℚ) : Except String (Execution × List ProgressEvent) :=
  execWorkflowLoop oracle now workflow.steps.length
    (pyOrQ workflow.budgetCap workflowBudgetCap) workflow.steps 0 "" 0
    { workflowId := workflow.id.getD "unknown",
      workflowName := workflow.name.getD "Unnamed",
      status := "running", startedAt := some now, stepResults := [],
      totalTokens := 0, totalCost := 0, workflowBudgetCap := workflowBudgetCap } []

/-! ## Derived accounting and event helpers -/

/-- Tokens of the last recorded attempt (0 when none). -/
def lastAttemptTokens (attempts : List Attempt) : Nat :=
  match attempts.getLast? with
  | some a => a.tokensUsed
  | none => 0

/-- Tokens summed over a list of step results. -/
def sumResultTokens (rs : List StepResult) : Nat :=
  (rs.map (fun r => r.tokensUsed)).sum

/-- Cost summed over a list of step results. -/
def sumResultCost (rs : List StepResult) : ℚ :=
  (rs.map (fun r => r.cost)).sum

/-- The "running" progress snapshot emitted before a step, reconstructed
    from the step's result record. -/
def runEv (totalSteps : Nat) (r : StepResult) : ProgressEvent :=
  { currentStep := r.stepIndex.getD 0 + 1, totalSteps := totalSteps,
    stepName := r.stepName, status := "running" }

/-- The "failed" terminal snapshot for a failed step. -/
def failEv (totalSteps : Nat) (r : StepResult) : ProgressEvent :=
  { currentStep := r.stepIndex.getD 0 + 1, totalSteps := totalSteps,
    stepName := r.stepName, status := "failed" }

/-- The "completed" terminal snapshot (note: it carries no step name). -/
def doneEv (totalSteps : Nat) : ProgressEvent :=
  { currentStep := totalSteps, totalSteps := totalSteps, status := "completed" }

/-! ## Concrete fixtures for witnesses and counterexamples -/

/-- A provider that always answers "ok" with no usage. -/
def oracleOk : Oracle := fun _ _ _ => { response := "ok" }

/-- A judge whose reply is not JSON at all. -/
def judgeOracleNotJson : Oracle := fun _ _ _ => { response := "not json", tokensUsed := 1 }

/-- A judge whose reply is the valid JSON document `true` (not an object). -/
def judgeOracleTrue : Oracle := fun _ _ _ => { response := "true", tokensUsed := 1 }

/-- A provider whose first call misses the criteria (5 tokens) and whose
    second call meets it (7 tokens). -/
def oracleC2 : Oracle := fun n _ _ =>
  if n == 0 then { response := "no", tokensUsed := 5 }
  else { response := "has target", tokensUsed := 7 }

/-- A step with one retry and a `contains` criterion. -/
def stepC2 : Step :=
  { completionCriteria := "target", criteriaType := "contains", maxRetries := 1 }

/-- A single-attempt step with a `contains` criterion. -/
def oneShotStep (crit : String) : Step :=
  { completionCriteria := crit, criteriaType := "contains", maxRetries := 0 }

/-- Three steps of which the second can never pass against `oracleOk`. -/
def wfC6 : Workflow := { steps := [oneShotStep "ok", oneShotStep "zz", oneShotStep "ok"] }

/-- The run of `wfC6`, and its projections. -/
def c6run : Except String (Execution × List ProgressEvent) :=
  executeWorkflow oracleOk "T0" wfC6 none

/-- Execution of the `wfC6` run. -/
def c6ex : Execution :=
  match c6run with
  | .ok p => p.1
  | .error _ => default

/-- Events of the `wfC6` run. -/
def c6ev : List ProgressEvent :=
  match c6run with
  | .ok p => p.2
  | .error _ => []

/-- A one-step workflow used with a negative budget cap. -/
def wfC8 : Workflow := { steps := [{ prompt := "p" }] }

/-- A one-step workflow that completes against `oracleOk`. -/
def wfC8b : Workflow := { steps := [oneShotStep "ok"] }

/-- The completing run of `wfC8b`, and its projections. -/
def c8run : Except String (Execution × List ProgressEvent) :=
  executeWorkflow oracleOk "T0" wfC8b none

/-- Execution of the `wfC8b` run. -/
def c8ex : Execution :=
  match c8run with
  | .ok p => p.1
  | .error _ => default

/-- Events of the `wfC8b` run. -/
def c8ev : List ProgressEvent :=
  match c8run with
  | .ok p => p.2
  | .error _ => []

/-- A step whose own budget cap is the falsy `0.0`. -/
def stepC9 : Step :=
  { completionCriteria := "ok", criteriaType := "contains", budgetCap := some 0 }

/-- An in-progress execution that has spent exactly 1 unit. -/
def exC5 : Execution :=
  { workflowId := "w", workflowName := "n", status := "running", totalCost := 1 }

/-- A workflow with no steps. -/
def wfC10 : Workflow := { steps := [] }

/-- The run of `stepC2` against `oracleC2`, and its projection. -/
def c2run : Except String (StepResult × Nat) :=
  executeStep oracleC2 stepC2 "" 0 none 0

/-- Step result of the `c2run` execution. -/
def c2sr : StepResult :=
  match c2run with
  | .ok p => p.1
  | .error _ => default

/-! ## Helper lemmas -/

/-- The kernel-friendly cost addition agrees with library addition on `ℚ`. -/
theorem qadd_eq (a b : ℚ) : qadd a b = a + b := by
  unfold qadd
  rw [Rat.normalize_eq_mkRat, Rat.mkRat_eq_div]
  have ha : ((a.den : ℚ)) ≠ 0 := by exact_mod_cast a.den_nz
  have hb : ((b.den : ℚ)) ≠ 0 := by exact_mod_cast b.den_nz
  conv_rhs => rw [← Rat.num_div_den a, ← Rat.num_div_den b]
  push_cast
  field_simp

/-! ## Claim C1: the llm-criteria fallback -/

/-- C1 counterexample: the claim says the fallback passes exactly when the
    lowercased criteria is a substring of the lowercased output. With the
    judge replying non-JSON, criteria "hello" and output "hello world",
    the substring test holds yet the code returns `passed=false` (its
    fallback only looks for the keyword "success" on both sides). -/
theorem C1_fallback_counterexample :
    (pyIn (pyLower "hello") (pyLower "hello world") = true) ∧
    checkCompletionWithLLM judgeOracleNotJson 0 "hello world" "hello" =
      .ok ({ passed := .bool false,
             reason := .str "Could not parse evaluation: Expecting value" }, 1) :=
  ⟨by decide, by rfl⟩

/-- C1 amended: when the judge call succeeds but its (fence-stripped)
    reply does not parse as JSON, the fallback passes iff the keyword
    "success" occurs in both the lowercased criteria and the lowercased
    output; the reason is "Found 'success' keyword" on pass and a
    "Could not parse evaluation" message — not a substring test of the
    criteria against the output, and no explicit fallback notice. -/
theorem C1_llm_fallback_amended (oracle : Oracle) (ctr : Nat) (output criteria e : String)
    (herr : (oracle ctr "gpt-3.5-turbo" (judgePrompt output criteria)).error = none)
    (hparse : jsonLoads (stripFences (pyStrip
        (oracle ctr "gpt-3.5-turbo" (judgePrompt output criteria)).response)) = .error e) :
    checkCompletionWithLLM oracle ctr output criteria =
      .ok ({ passed := .bool (pyIn "success" (pyLower criteria) && pyIn "success" (pyLower output)),
             reason := .str (if pyIn "success" (pyLower criteria) && pyIn "success" (pyLower output)
               then "Found \x27success\x27 keyword"
               else "Could not parse evaluation: " ++ e) }, ctr + 1) := by
  simp only [checkCompletionWithLLM, herr, hparse]
  cases hb : (pyIn "success" (pyLower criteria) && pyIn "success" (pyLower output)) <;> simp [hb]

/-- C1 witness: the amended theorem evaluated with a non-JSON judge reply,
    output "great success" and criteria "Success" (keyword on both sides). -/
theorem C1_llm_fallback_witness :
    ((judgeOracleNotJson 0 "gpt-3.5-turbo" (judgePrompt "great success" "Success")).error = none) ∧
    (jsonLoads (stripFences (pyStrip
        (judgeOracleNotJson 0 "gpt-3.5-turbo" (judgePrompt "great success" "Success")).response))
      = .error "Expecting value") ∧
    checkCompletionWithLLM judgeOracleNotJson 0 "great success" "Success" =
      .ok ({ passed := .bool (pyIn "success" (pyLower "Success")
               && pyIn "success" (pyLower "great success")),
             reason := .str (if pyIn "success" (pyLower "Success")
                 && pyIn "success" (pyLower "great success")
               then "Found \x27success\x27 keyword"
               else "Could not parse evaluation: " ++ "Expecting value") }, 0 + 1) :=
  ⟨rfl, rfl,
    C1_llm_fallback_amended judgeOracleNotJson 0 "great success" "Success" "Expecting value"
      rfl rfl⟩

/-! ## Claim C3: totality of CompletionChecker.check -/

/-- C3 counterexample: `check` is not total. For the `llm` criteria type,
    a judge reply of `true` is valid JSON but not an object, so the code
    calls `.get` on a bool and raises `AttributeError` instead of
    returning a CheckResult. -/
theorem C3_check_raises_counterexample :
    CompletionChecker.check judgeOracleTrue 0 "output text" "criteria text" "llm" =
      .error "AttributeError" := by rfl

/-- C3 amended: for every criteria type other than `llm`, `check` returns
    a CheckResult with a boolean `passed` and a string `reason` and never
    raises; in particular an invalid regex pattern yields `passed=false`
    with the parse error as the reason. (For `llm` the result copies
    arbitrary JSON values from the judge and can raise, see the
    counterexample.) -/
theorem C3_check_total_amended (oracle : Oracle) (ctr : Nat)
    (output criteria criteriaType : String) (hne : criteriaType ≠ "llm") :
    (∃ b s, CompletionChecker.check oracle ctr output criteria criteriaType =
      .ok ({ passed := .bool b, reason := .str s }, ctr)) ∧
    (∀ e, criteriaType = "regex" → reCompile criteria = .error e →
      CompletionChecker.check oracle ctr output criteria criteriaType =
        .ok ({ passed := .bool false, reason := .str ("Invalid regex: " ++ e) }, ctr)) := by
  constructor
  · unfold CompletionChecker.check
    split_ifs with h1 h2 h3 h4 h5
    · exact ⟨_, _, rfl⟩
    · unfold checkRegex
      cases hre : reCompile criteria with
      | ok re => exact ⟨_, _, rfl⟩
      | error e => exact ⟨_, _, rfl⟩
    · exact absurd (by simpa using h3) hne
    · unfold checkJson
      cases hj : jsonLoads output with
      | ok v => exact ⟨_, _, rfl⟩
      | error e => exact ⟨_, _, rfl⟩
    · exact ⟨_, _, rfl⟩
    · exact ⟨_, _, rfl⟩
  · intro e hty hre
    subst hty
    unfold CompletionChecker.check checkRegex
    simp [hre]

/-- C3 witness: the amended theorem evaluated on the unbalanced pattern
    `(` with the `regex` criteria type. -/
theorem C3_check_total_witness :
    (("regex" : String) ≠ "llm") ∧
    ((∃ b s, CompletionChecker.check oracleOk 0 "out" "(" "regex" =
        .ok ({ passed := .bool b, reason := .str s }, 0)) ∧
     (∀ e, ("regex" : String) = "regex" → reCompile "(" = .error e →
        CompletionChecker.check oracleOk 0 "out" "(" "regex" =
          .ok ({ passed := .bool false, reason := .str ("Invalid regex: " ++ e) }, 0))) :=
  ⟨by decide, C3_check_total_amended oracleOk 0 "out" "(" "regex" (by decide)⟩

/-! ## Claim C4: prompt assembly -/

/-- C4 counterexample: the prompt `{contextual}` contains none of the four
    placeholder tokens, yet nothing is prepended — the branch is chosen by
    the lowercased markers `{context` / `{previous`, and `{contextual}`
    matches the `{context` marker, so the code substitutes (vacuously)
    instead of prepending. -/
theorem C4_prompt_counterexample :
    (pyIn "\x7bcontext\x7d" "\x7bcontextual\x7d" = false) ∧
    (pyIn "\x7bcontext from previous step\x7d" "\x7bcontextual\x7d" = false) ∧
    (pyIn "\x7bprevious step output\x7d" "\x7bcontextual\x7d" = false) ∧
    (pyIn "\x7bprevious_output\x7d" "\x7bcontextual\x7d" = false) ∧
    buildPrompt "\x7bcontextual\x7d" "CTX" 1 ≠
      "Context from previous step:\nCTX\n\n\x7bcontextual\x7d" :=
  ⟨by decide, by decide, by decide, by decide, by decide⟩

/-- C4 amended: with non-empty context and `stepIndex > 0`, the context is
    prepended as a labeled block exactly when the lowercased prompt
    contains neither the marker `{context` nor `{previous`; when either
    marker occurs, the four placeholder tokens are replaced
    (case-sensitively, in the source's order) and nothing is prepended. -/
theorem C4_prompt_assembly_amended (prompt context : String) (stepIndex : Nat)
    (hctx : context ≠ "") (hidx : 0 < stepIndex) :
    (pyIn "\x7bcontext" (pyLower prompt) = false →
     pyIn "\x7bprevious" (pyLower prompt) = false →
      buildPrompt prompt context stepIndex =
        "Context from previous step:\n" ++ context ++ "\n\n" ++ prompt) ∧
    ((pyIn "\x7bcontext" (pyLower prompt) = true ∨ pyIn "\x7bprevious" (pyLower prompt) = true) →
      buildPrompt prompt context stepIndex =
        pyReplace (pyReplace (pyReplace (pyReplace prompt
          "\x7bcontext from previous step\x7d" context)
          "\x7bcontext\x7d" context)
          "\x7bprevious step output\x7d" context)
          "\x7bprevious_output\x7d" context) := by
  constructor
  · intro h1 h2
    simp [buildPrompt, hctx, hidx, h1, h2]
  · intro h
    rcases h with h | h <;> simp [buildPrompt, hctx, hidx, h]

/-- C4 witness: the amended theorem evaluated on a marker-free prompt. -/
theorem C4_prompt_assembly_witness :
    (("CTX" : String) ≠ "") ∧ (0 < 1) ∧
    ((pyIn "\x7bcontext" (pyLower "write code") = false →
      pyIn "\x7bprevious" (pyLower "write code") = false →
      buildPrompt "write code" "CTX" 1 =
        "Context from previous step:\n" ++ "CTX" ++ "\n\n" ++ "write code") ∧
     ((pyIn "\x7bcontext" (pyLower "write code") = true ∨
       pyIn "\x7bprevious" (pyLower "write code") = true) →
      buildPrompt "write code" "CTX" 1 =
        pyReplace (pyReplace (pyReplace (pyReplace "write code"
          "\x7bcontext from previous step\x7d" "CTX")
          "\x7bcontext\x7d" "CTX")
          "\x7bprevious step output\x7d" "CTX")
          "\x7bprevious_output\x7d" "CTX")) :=
  ⟨by decide, by decide, C4_prompt_assembly_amended "write code" "CTX" 1 (by decide) (by decide)⟩

/-! ## Claim C5: the pre-step workflow budget check -/

/-- C5: before each step (the loop entry for any remaining step), if the
    effective workflow budget is a set (truthy) cap `b` and the cumulative
    cost already satisfies `cost >= b`, the run stops with status failed,
    `failedAtStep` the 1-based index of that step, the cap and spend named
    in the error, and no attempt made (step results and events unchanged,
    no provider call). The comparison is `>=`: equality blocks the step. -/
theorem C5_workflow_budget_precheck (oracle : Oracle) (now : String) (totalSteps : Nat)
    (b : ℚ) (hb : b ≠ 0) (step : Step) (rest : List Step) (i : Nat)
    (context : String) (ctr : Nat) (ex : Execution) (events : List ProgressEvent)
    (hcost : b ≤ ex.totalCost) :
    execWorkflowLoop oracle now totalSteps (some b) (step :: rest) i context ctr ex events =
      .ok ({ ex with status := "failed", failedAtStep := some (i + 1),
                     completedAt := some now,
                     error := some ("Workflow budget cap of $" ++ fmt4 b
                       ++ " exceeded. Current cost: $" ++ fmt4 ex.totalCost) }, events) := by
  have hhit : budgetHit (some b) ex.totalCost = true := by
    simp [budgetHit, hb, hcost]
  simp only [execWorkflowLoop, hhit]
  simp

/-- C5 witness: cap 1 with spend exactly 1 — the boundary case — blocks
    the first remaining step. -/
theorem C5_workflow_budget_precheck_witness :
    ((1 : ℚ) ≠ 0) ∧ ((1 : ℚ) ≤ exC5.totalCost) ∧
    execWorkflowLoop oracleOk "T0" 1 (some 1) [oneShotStep "ok"] 0 "" 0 exC5 [] =
      .ok ({ exC5 with status := "failed", failedAtStep := some (0 + 1),
                       completedAt := some "T0",
                       error := some ("Workflow budget cap of $" ++ fmt4 1
                         ++ " exceeded. Current cost: $" ++ fmt4 exC5.totalCost) }, []) :=
  ⟨by decide, by decide,
    C5_workflow_budget_precheck oracleOk "T0" 1 1 (by decide) (oneShotStep "ok") [] 0 "" 0
      exC5 [] (by decide)⟩

/-! ## Claim C7: code_blocks extraction -/

/-- C7 counterexample: the output consisting of one empty fenced block is
    non-empty, yet extraction returns the empty string — the "never
    returns empty for non-empty output" part of the claim fails. -/
theorem C7_empty_blocks_counterexample :
    extractContext "```\n```" "code_blocks" = "" ∧ ("```\n```" : String) ≠ "" :=
  ⟨rfl, by decide⟩

/-- C7 amended: with no fenced block the output is returned unchanged;
    with fenced blocks the block bodies are joined in discovery order with
    a blank line between (two blocks A, B give "A\n\nB"); but the result
    can be empty for a non-empty output whose blocks are all empty. -/
theorem C7_code_blocks_amended (output : String) :
    (findCodeBlocks output = [] → extractContext output "code_blocks" = output) ∧
    (∀ A B, findCodeBlocks output = [A, B] →
      extractContext output "code_blocks" = A ++ "\n\n" ++ B) := by
  have e : extractContext output "code_blocks"
      = (if (findCodeBlocks output).isEmpty then output
         else pyJoin "\n\n" (findCodeBlocks output)) := rfl
  constructor
  · intro h
    rw [e, h]
    rfl
  · intro A B h
    rw [e, h]
    rfl

/-- C7 witness: the amended theorem evaluated on an output with the two
    fenced blocks "A" and "B". -/
theorem C7_code_blocks_witness :
    findCodeBlocks "pre```\nA``` mid ```\nB``` post" = ["A", "B"] ∧
    extractContext "pre```\nA``` mid ```\nB``` post" "code_blocks" = "A" ++ "\n\n" ++ "B" :=
  ⟨rfl, (C7_code_blocks_amended "pre```\nA``` mid ```\nB``` post").2 "A" "B" rfl⟩

/-! ## Claim C9: falsy step-level budget caps fall through -/

/-- C9: when a step's own `budget_cap` is absent or the falsy `0`, the
    retry loop runs with the inherited workflow-derived cap — a zero
    step cap does not make the step unlimited. -/
theorem C9_step_cap_fallthrough (oracle : Oracle) (step : Step) (context : String)
    (stepIndex : Nat) (budgetCap : Option ℚ) (ctr : Nat)
    (h : step.budgetCap = none ∨ step.budgetCap = some 0) :
    executeStep oracle step context stepIndex budgetCap ctr =
      executeStepLoop oracle (buildPrompt step.prompt context stepIndex) step.model
        step.completionCriteria step.criteriaType step.contextExtraction step.maxRetries
        budgetCap (step.maxRetries + 1) 0 [] "" 0 ctr := by
  have hcap : pyOrQ step.budgetCap budgetCap = budgetCap := by
    rcases h with h | h <;> simp [pyOrQ, pyTruthyQ, h]
  simp [executeStep, hcap]

/-- C9 witness: the fall-through evaluated for a step whose own cap is
    `0` and an inherited cap of `5`. -/
theorem C9_step_cap_fallthrough_witness :
    (stepC9.budgetCap = none ∨ stepC9.budgetCap = some 0) ∧
    executeStep oracleOk stepC9 "" 0 (some 5) 0 =
      executeStepLoop oracleOk (buildPrompt stepC9.prompt "" 0) stepC9.model
        stepC9.completionCriteria stepC9.criteriaType stepC9.contextExtraction stepC9.maxRetries
        (some 5) (stepC9.maxRetries + 1) 0 [] "" 0 0 :=
  ⟨Or.inr rfl, C9_step_cap_fallthrough oracleOk stepC9 "" 0 (some 5) 0 (Or.inr rfl)⟩

/-! ## Claim C10: the empty workflow -/

/-- C10: a workflow with no steps returns normally: status completed,
    no step results, zero totals, both timestamps stamped, and a single
    "completed" progress event with `total_steps = 0` (no "running"
    events). -/
theorem C10_empty_workflow (oracle : Oracle) (now : String) (workflow : Workflow)
    (cap : Option ℚ) (h : workflow.steps = []) :
    executeWorkflow oracle now workflow cap =
      .ok ({ workflowId := workflow.id.getD "unknown",
             workflowName := workflow.name.getD "Unnamed",
             status := "completed", startedAt := some now, completedAt := some now,
             stepResults := [], totalTokens := 0, totalCost := 0,
             workflowBudgetCap := cap },
           [{ currentStep := 0, totalSteps := 0, status := "completed" }]) := by
  simp only [executeWorkflow, h]
  rfl

/-- C10 witness: the theorem evaluated on a concrete empty workflow. -/
theorem C10_empty_workflow_witness :
    wfC10.steps = [] ∧
    executeWorkflow oracleOk "T0" wfC10 none =
      .ok ({ workflowId := wfC10.id.getD "unknown",
             workflowName := wfC10.name.getD "Unnamed",
             status := "completed", startedAt := some "T0", completedAt := some "T0",
             stepResults := [], totalTokens := 0, totalCost := 0,
             workflowBudgetCap := none },
           [{ currentStep := 0, totalSteps := 0, status := "completed" }]) :=
  ⟨rfl, C10_empty_workflow oracleOk "T0" wfC10 none rfl⟩

/-! ## Claim C2: token accounting of a step -/

/-- Helper for C2: token accounting of every return path of the retry
    loop, each tied to the path that produces it. A completed step
    reports only the final attempt's tokens. A failed step reports the
    sum over attempts when it fails by retry exhaustion (identified by
    its "Failed to meet completion criteria" error) or by the step
    budget pre-check (identified by its "Budget cap" error naming the
    step's own cost); it reports 0 exactly on the provider-error path,
    identified by empty output and a final recorded attempt of status
    "error" carrying that same provider error. -/
theorem executeStepLoop_tokens (oracle : Oracle)
    (prompt model criteria criteriaType ctxE : String) (maxR : Nat) (cap : Option ℚ) :
    ∀ (fuel aIdx : Nat) (attempts : List Attempt) (lastOut : String) (stepCost : ℚ)
      (ctr : Nat) (sr : StepResult) (ctr' : Nat),
      executeStepLoop oracle prompt model criteria criteriaType ctxE maxR cap fuel aIdx attempts
        lastOut stepCost ctr = .ok (sr, ctr') →
      (sr.status = "completed" → sr.tokensUsed = lastAttemptTokens sr.attempts) ∧
      (sr.status = "failed" →
        (sr.error = some ("Failed to meet completion criteria after "
            ++ toString (maxR + 1) ++ " attempts") ∧
          sr.tokensUsed = sumAttemptTokens sr.attempts) ∨
        ((∃ b : ℚ, sr.error = some ("Budget cap of $" ++ fmt4 b
            ++ " exceeded. Current cost: $" ++ fmt4 sr.cost)) ∧
          sr.tokensUsed = sumAttemptTokens sr.attempts) ∨
        (∃ err a, sr.error = some err ∧ sr.output = "" ∧
          sr.attempts.getLast? = some a ∧ a.status = "error" ∧ a.error = some err ∧
          sr.tokensUsed = 0)) := by
  intro fuel
  induction fuel with
  | zero =>
    intro aIdx attempts lastOut stepCost ctr sr ctr' h
    simp only [executeStepLoop, Except.ok.injEq, Prod.mk.injEq] at h
    obtain ⟨h1, -⟩ := h
    subst h1
    refine ⟨fun hst => ?_, fun _ => Or.inl ⟨rfl, rfl⟩⟩
    simp at hst
  | succ fuel ih =>
    intro aIdx attempts lastOut stepCost ctr sr ctr' h
    simp only [executeStepLoop] at h
    split at h
    · -- budget pre-check fired
      simp only [Except.ok.injEq, Prod.mk.injEq] at h
      obtain ⟨h1, -⟩ := h
      subst h1
      refine ⟨fun hst => ?_, fun _ => Or.inr (Or.inl ⟨⟨cap.getD 0, rfl⟩, rfl⟩)⟩
      simp at hst
    · split at h
      · -- provider error
        split at h
        · -- error on the final attempt: the step fails with tokens 0
          simp only [Except.ok.injEq, Prod.mk.injEq] at h
          obtain ⟨h1, -⟩ := h
          subst h1
          constructor
          · intro hst
            simp at hst
          · intro _
            right; right
            exact ⟨_, _, rfl, rfl, List.getLast?_concat _, rfl, rfl, rfl⟩
        · exact ih _ _ _ _ _ _ _ h
      · split at h
        · exact absurd h (by simp)
        · split at h
          · -- criteria passed: completed
            simp only [Except.ok.injEq, Prod.mk.injEq] at h
            obtain ⟨h1, -⟩ := h
            subst h1
            refine ⟨fun _ => ?_, fun hst => ?_⟩
            · simp [lastAttemptTokens, List.getLast?_concat]
            · simp at hst
          · exact ih _ _ _ _ _ _ _ h

/-- C2 counterexample: a step that fails its first attempt (5 tokens) and
    passes the second (7 tokens) completes with `tokens_used = 7`, not the
    attempts' total 12 — the completed path reports only the last
    attempt's tokens. -/
theorem C2_tokens_counterexample :
    c2sr.status = "completed" ∧ c2sr.tokensUsed = 7 ∧ sumAttemptTokens c2sr.attempts = 12 :=
  ⟨rfl, rfl, rfl⟩

/-- C2 amended: a completed step's `tokens_used` equals the final
    attempt's tokens, not the sum over attempts; a failed step's
    `tokens_used` is the sum over its attempts when it fails by retry
    exhaustion or by the step budget pre-check (each identified by its
    error message), and 0 exactly when it fails by a provider error on
    the final attempt (identified by empty output and a last recorded
    attempt of status "error" carrying that provider error). -/
theorem C2_tokens_amended (oracle : Oracle) (step : Step) (context : String)
    (stepIndex : Nat) (budgetCap : Option ℚ) (ctr : Nat) (sr : StepResult) (ctr' : Nat)
    (h : executeStep oracle step context stepIndex budgetCap ctr = .ok (sr, ctr')) :
    (sr.status = "completed" → sr.tokensUsed = lastAttemptTokens sr.attempts) ∧
    (sr.status = "failed" →
      (sr.error = some ("Failed to meet completion criteria after "
          ++ toString (step.maxRetries + 1) ++ " attempts") ∧
        sr.tokensUsed = sumAttemptTokens sr.attempts) ∨
      ((∃ b : ℚ, sr.error = some ("Budget cap of $" ++ fmt4 b
          ++ " exceeded. Current cost: $" ++ fmt4 sr.cost)) ∧
        sr.tokensUsed = sumAttemptTokens sr.attempts) ∨
      (∃ err a, sr.error = some err ∧ sr.output = "" ∧
        sr.attempts.getLast? = some a ∧ a.status = "error" ∧ a.error = some err ∧
        sr.tokensUsed = 0)) :=
  executeStepLoop_tokens oracle (buildPrompt step.prompt context stepIndex) step.model
    step.completionCriteria step.criteriaType step.contextExtraction step.maxRetries
    (pyOrQ step.budgetCap budgetCap) (step.maxRetries + 1) 0 [] "" 0 ctr sr ctr' h

/-- C2 witness: the amended theorem evaluated on the two-attempt run. -/
theorem C2_tokens_witness :
    (executeStep oracleC2 stepC2 "" 0 none 0 = .ok (c2sr, 2)) ∧
    ((c2sr.status = "completed" → c2sr.tokensUsed = lastAttemptTokens c2sr.attempts) ∧
     (c2sr.status = "failed" →
       (c2sr.error = some ("Failed to meet completion criteria after "
           ++ toString (stepC2.maxRetries + 1) ++ " attempts") ∧
         c2sr.tokensUsed = sumAttemptTokens c2sr.attempts) ∨
       ((∃ b : ℚ, c2sr.error = some ("Budget cap of $" ++ fmt4 b
           ++ " exceeded. Current cost: $" ++ fmt4 c2sr.cost)) ∧
         c2sr.tokensUsed = sumAttemptTokens c2sr.attempts) ∨
       (∃ err a, c2sr.error = some err ∧ c2sr.output = "" ∧
         c2sr.attempts.getLast? = some a ∧ a.status = "error" ∧ a.error = some err ∧
         c2sr.tokensUsed = 0))) :=
  ⟨rfl, C2_tokens_amended oracleC2 stepC2 "" 0 none 0 c2sr 2 rfl⟩

/-! ## The workflow loop invariant (shared by C6 and C8) -/

/-- Invariant of `execWorkflowLoop`, entered with a running execution:
    the loop appends some list `new` of step results, accumulates their
    tokens and costs into the totals, stamps `completedAt`, and ends in
    exactly one of three ways: all steps completed (one terminal
    "completed" event, which carries no step name); a step failed (it is
    the last result, `failedAtStep` points at it 1-based, one terminal
    "failed" event); or the budget pre-check stopped the run
    (`failedAtStep` points one past the recorded results, and no terminal
    event is emitted). A "running" event precedes every recorded step. -/
theorem execWorkflowLoop_invariant (oracle : Oracle) (now : String) (totalSteps : Nat)
    (wfB : Option ℚ) :
    ∀ (steps : List Step) (i : Nat) (context : String) (ctr : Nat)
      (ex : Execution) (events : List ProgressEvent) (ex' : Execution)
      (events' : List ProgressEvent),
      ex.status = "running" →
      execWorkflowLoop oracle now totalSteps wfB steps i context ctr ex events
        = .ok (ex', events') →
      ∃ new : List StepResult,
        ex'.stepResults = ex.stepResults ++ new ∧
        ex'.totalTokens = ex.totalTokens + sumResultTokens new ∧
        ex'.totalCost = ex.totalCost + sumResultCost new ∧
        ex'.completedAt = some now ∧
        ((ex'.status = "completed" ∧ (∀ r ∈ new, r.status ≠ "failed") ∧
            events' = events ++ new.map (runEv totalSteps) ++ [doneEv totalSteps]) ∨
         (ex'.status = "failed" ∧ (∀ r ∈ new.dropLast, r.status ≠ "failed") ∧
            ∃ last, new.getLast? = some last ∧ last.status = "failed" ∧
              ex'.failedAtStep = some (i + new.length) ∧
              events' = events ++ new.map (runEv totalSteps) ++ [failEv totalSteps last]) ∨
         (ex'.status = "failed" ∧ (∀ r ∈ new, r.status ≠ "failed") ∧
            ex'.failedAtStep = some (i + new.length + 1) ∧
            events' = events ++ new.map (runEv totalSteps))) := by
  intro steps
  induction steps with
  | nil =>
    intro i context ctr ex events ex' events' hrun h
    simp only [execWorkflowLoop, hrun, beq_self_eq_true, if_true, Except.ok.injEq,
      Prod.mk.injEq] at h
    obtain ⟨h1, h2⟩ := h
    subst h1
    subst h2
    refine ⟨[], by simp, by simp [sumResultTokens], by simp [sumResultCost], rfl, ?_⟩
    left
    exact ⟨rfl, by simp, by simp [doneEv]⟩
  | cons step rest ih =>
    intro i context ctr ex events ex' events' hrun h
    simp only [execWorkflowLoop] at h
    split at h
    · -- budget pre-check fired
      simp only [Except.ok.injEq, Prod.mk.injEq] at h
      obtain ⟨h1, h2⟩ := h
      subst h1
      subst h2
      refine ⟨[], by simp, by simp [sumResultTokens], by simp [sumResultCost], rfl, ?_⟩
      right; right
      exact ⟨rfl, by simp, by simp, by simp⟩
    · -- budget check passed
      split at h
      · -- executeStep raised; the ok hypothesis is impossible
        exact absurd h (by simp)
      · -- executeStep returned (sr0, ctr1)
        rename_i sr0 ctr1 hstep
        split at h
        · -- step failed: loop stops here
          rename_i hfb
          simp only [Except.ok.injEq, Prod.mk.injEq] at h
          obtain ⟨h1, h2⟩ := h
          subst h1
          subst h2
          refine ⟨[{ sr0 with stepIndex := some i, stepName := some (step.name.getD ("Step " ++ toString (i + 1))) }], by simp, by simp [sumResultTokens], ?_, rfl, ?_⟩
          · simp [sumResultCost, qadd_eq]
          · right; left
            refine ⟨rfl, by simp, _, rfl, ?_, by simp, ?_⟩
            · simpa using hfb
            · simp [runEv, failEv]
        · -- step passed: continue with the grown execution
          rename_i hfb
          obtain ⟨new', h1, h2, h3, h4, hcase⟩ := ih _ _ _ _ _ _ _ (by exact hrun) h
          refine ⟨{ sr0 with stepIndex := some i, stepName := some (step.name.getD ("Step " ++ toString (i + 1))) } :: new', ?_, ?_, ?_, h4, ?_⟩
          · rw [h1]
            simp
          · rw [h2]
            simp only [sumResultTokens, List.map_cons, List.sum_cons]
            omega
          · rw [h3, qadd_eq]
            simp only [sumResultCost, List.map_cons, List.sum_cons]
            ring
          · have hsr : sr0.status ≠ "failed" := by simpa using hfb
            rcases hcase with ⟨ha1, ha2, ha3⟩ | ⟨hb1, hb2, last, hb3, hb4, hb5, hb6⟩ |
              ⟨hc1, hc2, hc3, hc4⟩
            · left
              refine ⟨ha1, ?_, ?_⟩
              · intro r hr
                rcases List.mem_cons.mp hr with rfl | hr
                · exact hsr
                · exact ha2 r hr
              · rw [ha3]
                simp [runEv]
            · right; left
              cases new' with
              | nil => simp at hb3
              | cons x xs =>
                refine ⟨hb1, ?_, last, ?_, hb4, ?_, ?_⟩
                · intro r hr
                  simp only [List.dropLast] at hr
                  rcases List.mem_cons.mp hr with rfl | hr
                  · exact hsr
                  · exact hb2 r (by simpa using hr)
                · simpa using hb3
                · rw [hb5]
                  simp only [Option.some.injEq, List.length_cons]
                  omega
                · rw [hb6]
                  simp [runEv]
            · right; right
              refine ⟨hc1, ?_, ?_, ?_⟩
              · intro r hr
                rcases List.mem_cons.mp hr with rfl | hr
                · exact hsr
                · exact hc2 r hr
              · rw [hc3]
                simp only [Option.some.injEq, List.length_cons]
                omega
              · rw [hc4]
                simp [runEv]

/-! ## Claim C6: a failed step stops the workflow -/

/-- C6: if the k-th (0-based) recorded step result of a workflow run is
    failed, the execution is failed with `failedAtStep = k + 1` (1-based),
    exactly `k + 1` step results exist (later steps never ran),
    `completedAt` is stamped, and the totals are the sums over all
    recorded step results — the failed step's tokens and cost included. -/
theorem C6_failed_step_stops (oracle : Oracle) (now : String) (workflow : Workflow)
    (cap : Option ℚ) (ex : Execution) (events : List ProgressEvent) (k : Nat)
    (hrun : executeWorkflow oracle now workflow cap = .ok (ex, events))
    (hk : k < ex.stepResults.length)
    (hfail : (ex.stepResults.get ⟨k, hk⟩).status = "failed") :
    ex.status = "failed" ∧ ex.failedAtStep = some (k + 1) ∧
    ex.stepResults.length = k + 1 ∧ ex.completedAt = some now ∧
    ex.totalTokens = sumResultTokens ex.stepResults ∧
    ex.totalCost = sumResultCost ex.stepResults := by
  obtain ⟨new, h1, h2, h3, h4, hcase⟩ :=
    execWorkflowLoop_invariant oracle now workflow.steps.length
      (pyOrQ workflow.budgetCap cap) workflow.steps 0 "" 0 _ [] ex events rfl hrun
  simp only [List.nil_append] at h1
  simp only [Nat.zero_add, zero_add] at h2 h3
  subst h1
  rcases hcase with ⟨ha1, ha2, -⟩ | ⟨hb1, hb2, last, hb3, hb4, hb5, -⟩ | ⟨hc1, hc2, -, -⟩
  · exact absurd hfail (ha2 _ (List.get_mem _ _ _))
  · have hlen : ex.stepResults.length = k + 1 := by
      by_contra hne
      have hk2 : k < ex.stepResults.dropLast.length := by
        simp only [List.length_dropLast]
        omega
      have hmem : ex.stepResults.get ⟨k, hk⟩ ∈ ex.stepResults.dropLast := by
        have hge : ex.stepResults.dropLast.get ⟨k, hk2⟩ = ex.stepResults.get ⟨k, hk⟩ := by
          simp [List.get_eq_getElem, List.getElem_dropLast]
        rw [← hge]
        exact List.get_mem _ _ _
      exact absurd hfail (hb2 _ hmem)
    refine ⟨hb1, ?_, hlen, h4, h2, h3⟩
    rw [hb5]
    simp [hlen]
  · exact absurd hfail (hc2 _ (List.get_mem _ _ _))

/-- C6 witness: the theorem evaluated on a 3-step workflow whose second
    step fails — 2 step results, `failedAtStep = 2`, step 3 never runs. -/
theorem C6_failed_step_witness :
    (executeWorkflow oracleOk "T0" wfC6 none = .ok (c6ex, c6ev)) ∧
    ((c6ex.stepResults.get ⟨1, by decide⟩).status = "failed") ∧
    (c6ex.status = "failed" ∧ c6ex.failedAtStep = some (1 + 1) ∧
     c6ex.stepResults.length = 1 + 1 ∧ c6ex.completedAt = some "T0" ∧
     c6ex.totalTokens = sumResultTokens c6ex.stepResults ∧
     c6ex.totalCost = sumResultCost c6ex.stepResults) :=
  ⟨rfl, rfl, C6_failed_step_stops oracleOk "T0" wfC6 none c6ex c6ev 1 rfl (by decide) rfl⟩

/-! ## Claim C8: progress events -/

/-- C8 counterexample: a run terminated by the workflow budget pre-check
    (cap -1, cost 0, `0 >= -1`) ends with status failed but emits no
    progress event at all — in particular no terminal "failed" snapshot,
    though the claim promises one for every terminal failure including
    budget pre-check failures. -/
theorem C8_no_terminal_event_counterexample :
    executeWorkflow oracleOk "T0" wfC8 (some (-1)) =
      .ok ({ workflowId := "unknown", workflowName := "Unnamed", status := "failed",
             startedAt := some "T0", completedAt := some "T0", stepResults := [],
             totalTokens := 0, totalCost := 0, workflowBudgetCap := some (-1),
             failedAtStep := some 1,
             error := some "Workflow budget cap of $-1.0000 exceeded. Current cost: $0.0000" },
           []) := by rfl

/-- C8 amended: one "running" snapshot (with step name) precedes each
    recorded step, in order; a run that completes ends with exactly one
    "completed" snapshot, which carries no step name; a run that fails at
    a recorded step ends with exactly one "failed" snapshot for that
    step; a run stopped by the workflow budget pre-check
    (`failedAtStep = recorded + 1`) emits no terminal snapshot. -/
theorem C8_progress_events_amended (oracle : Oracle) (now : String) (workflow : Workflow)
    (cap : Option ℚ) (ex : Execution) (events : List ProgressEvent)
    (hrun : executeWorkflow oracle now workflow cap = .ok (ex, events)) :
    (ex.status = "completed" →
      events = ex.stepResults.map (runEv workflow.steps.length)
        ++ [doneEv workflow.steps.length]) ∧
    (ex.status = "failed" → ex.failedAtStep = some ex.stepResults.length →
      ∃ last, ex.stepResults.getLast? = some last ∧
        events = ex.stepResults.map (runEv workflow.steps.length)
          ++ [failEv workflow.steps.length last]) ∧
    (ex.status = "failed" → ex.failedAtStep = some (ex.stepResults.length + 1) →
      events = ex.stepResults.map (runEv workflow.steps.length)) := by
  obtain ⟨new, h1, h2, h3, h4, hcase⟩ :=
    execWorkflowLoop_invariant oracle now workflow.steps.length
      (pyOrQ workflow.budgetCap cap) workflow.steps 0 "" 0 _ [] ex events rfl hrun
  simp only [List.nil_append] at h1
  subst h1
  rcases hcase with ⟨ha1, ha2, ha3⟩ | ⟨hb1, hb2, last, hb3, hb4, hb5, hb6⟩ |
    ⟨hc1, hc2, hc3, hc4⟩
  · refine ⟨fun _ => by simpa using ha3, fun hst _ => ?_, fun hst _ => ?_⟩
    · rw [ha1] at hst
      exact absurd hst (by decide)
    · rw [ha1] at hst
      exact absurd hst (by decide)
  · refine ⟨fun hst => ?_, fun _ _ => ⟨last, hb3, by simpa using hb6⟩, fun _ hfs => ?_⟩
    · rw [hb1] at hst
      exact absurd hst (by decide)
    · rw [hb5] at hfs
      simp only [Option.some.injEq] at hfs
      omega
  · refine ⟨fun hst => ?_, fun _ hfs => ?_, fun _ _ => by simpa using hc4⟩
    · rw [hc1] at hst
      exact absurd hst (by decide)
    · rw [hc3] at hfs
      simp only [Option.some.injEq] at hfs
      omega

/-- C8 witness: the amended theorem evaluated on a one-step completing
    run. -/
theorem C8_progress_events_witness :
    (executeWorkflow oracleOk "T0" wfC8b none = .ok (c8ex, c8ev)) ∧
    ((c8ex.status = "completed" →
       c8ev = c8ex.stepResults.map (runEv wfC8b.steps.length)
         ++ [doneEv wfC8b.steps.length]) ∧
     (c8ex.status = "failed" → c8ex.failedAtStep = some c8ex.stepResults.length →
       ∃ last, c8ex.stepResults.getLast? = some last ∧
         c8ev = c8ex.stepResults.map (runEv wfC8b.steps.length)
           ++ [failEv wfC8b.steps.length last]) ∧
     (c8ex.status = "failed" → c8ex.failedAtStep = some (c8ex.stepResults.length + 1) →
       c8ev = c8ex.stepResults.map (runEv wfC8b.steps.length))) :=
  ⟨rfl, C8_progress_events_amended oracleOk "T0" wfC8b none c8ex c8ev rfl⟩
